import Mathlib

/-
Shallow embedding of src/freetz-ng/mqtt_to_sqlite/mqtt_to_sqlite.c.

The program is a single-threaded MQTT-to-SQLite bridge.  We embed the pure
decision logic of its functions over explicit state:

  * `run_network_repair_script` (lines 86-108): throttled invocation of an
    external repair command.  Wall clock `now` and the result of the C
    function `system` (`sysRc`) are inputs; the mutable global
    `g_last_script_run` becomes `RepairState.last` (initial value 0).
  * `db_insert_message` (lines 168-200): the SQLite insert path.  The
    database becomes a list of rows; the outcomes of `malloc` and
    `sqlite3_step` are oracle inputs (`mallocOk`, `stepOk`).  A second
    embedding, `db_insert_message_ops`, records the exact sequence of
    statement operations the call performs.
  * `handle_connect` (lines 204-218), `handle_disconnect` (lines 220-228),
    `handle_message` (lines 230-242), the connect step of `main`
    (lines 296-301), `db_init` (lines 112-155) and `env_or_default_int`
    (lines 59-67).

SQLite `sqlite3_bind_text` with length -1 reads the buffer up to the first
null byte; this is modelled by `cTextBytes`.  `CREATE ... IF NOT EXISTS`
becomes a conditional append on a `Schema` record.  `strtol` with base 10
is modelled by `strtol10` over unbounded `Int`; for the range gate
`0 <= x <= 1000000` this is observationally identical to `long`
arithmetic, because clamped overflow values still exceed the bound.
-/

/-- State of the repair throttle: the C global `g_last_script_run`. -/
structure RepairState where
  last : Int
deriving DecidableEq

/-- The C constant `SCRIPT_MIN_INTERVAL_SEC`. -/
def SCRIPT_MIN_INTERVAL_SEC : Int := 20

/-- Result of one call to the repair trigger: the C return value `rc`,
whether `system` was invoked (`ran`), and the updated throttle state. -/
structure RepairResult where
  rc : Int
  ran : Bool
  state : RepairState
deriving DecidableEq

/-- Embedding of `run_network_repair_script` (mqtt_to_sqlite.c lines 86-108).
If fewer than `SCRIPT_MIN_INTERVAL_SEC` seconds elapsed since the last
recorded run, the call logs and returns 0 without touching the state or
running the command; otherwise it records `now` and runs the command via
`system`, returning -1 when the launch itself failed (`sysRc = -1`) and 0
otherwise. -/
def run_network_repair_script (now sysRc : Int) (s : RepairState) : RepairResult :=
  if now - s.last < SCRIPT_MIN_INTERVAL_SEC then
    { rc := 0, ran := false, state := s }
  else
    let s2 : RepairState := { last := now }
    if sysRc = -1 then { rc := -1, ran := true, state := s2 }
    else { rc := 0, ran := true, state := s2 }

/-- Embedding of the payload buffer construction in `db_insert_message`
(lines 182-189): when the inbound payload pointer is non-null and the
length is non-negative, a buffer of the first `payloadlen` bytes with a
null terminator appended is allocated (`none` when `malloc` fails);
otherwise the buffer pointer stays null. -/
def boundPayloadBuf (payload : Option (List UInt8)) (payloadlen : Int)
    (mallocOk : Bool) : Option (List UInt8) :=
  match payload with
  | none => none
  | some bs =>
    if 0 ≤ payloadlen then
      if mallocOk then some (bs.take payloadlen.toNat ++ [0]) else none
    else none

/-- The text SQLite stores for a buffer bound with `sqlite3_bind_text` and
length -1: the bytes strictly before the first null byte. -/
def cTextBytes (buf : List UInt8) : List UInt8 :=
  buf.takeWhile (fun b => b != 0)

/-- The payload text actually bound at parameter 3 of the insert statement
(line 190): the buffer when it exists, the empty C string `[0]` otherwise
(`pl ? pl : ""`), read up to the first null byte. -/
def boundPayload (payload : Option (List UInt8)) (payloadlen : Int)
    (mallocOk : Bool) : List UInt8 :=
  cTextBytes ((boundPayloadBuf payload payloadlen mallocOk).getD [0])

/-- One persisted row of the `messages` table (ignoring the
store-assigned autoincrement id). -/
structure Row where
  ts : Int
  topic : String
  payload : List UInt8
  qos : Int
  retain : Int
deriving DecidableEq

/-- Database state: whether the prepared insert statement exists
(`g_stmt_insert` non-null) and the persisted rows in insertion order. -/
structure DBState where
  stmtPrepared : Bool
  rows : List Row
deriving DecidableEq

/-- Embedding of `db_insert_message` (lines 168-200) at the level of the
stored rows.  A null prepared statement makes the call a no-op.  Otherwise
the call binds `now` (wall clock at insert time), topic, payload, qos and
retain and steps the statement: on success the row is appended, on failure
the error is only logged and the state is unchanged.  The call always
returns (void in C). -/
def db_insert_message (db : DBState) (now : Int) (topic : String)
    (payload : Option (List UInt8)) (payloadlen qos retain : Int)
    (mallocOk stepOk : Bool) : DBState :=
  if db.stmtPrepared = false then db
  else if stepOk then
    { db with rows := db.rows ++
        [{ ts := now, topic := topic,
           payload := boundPayload payload payloadlen mallocOk,
           qos := qos, retain := retain }] }
  else db

/-- C1: the repair trigger is a strict throttle.  A call with elapsed time
below `SCRIPT_MIN_INTERVAL_SEC` runs nothing and leaves the recorded time
unchanged; a call with elapsed time at least the interval records `now`
and runs the command.  Consequently two trigger calls less than the
interval apart run the command at most once, and two calls more than the
interval apart (the first itself past the throttle) run it for each. -/
theorem C1_repair_trigger_throttle :
    (∀ (now sysRc : Int) (s : RepairState),
        now - s.last < SCRIPT_MIN_INTERVAL_SEC →
          (run_network_repair_script now sysRc s).ran = false ∧
          (run_network_repair_script now sysRc s).state = s) ∧
    (∀ (now sysRc : Int) (s : RepairState),
        SCRIPT_MIN_INTERVAL_SEC ≤ now - s.last →
          (run_network_repair_script now sysRc s).ran = true ∧
          (run_network_repair_script now sysRc s).state.last = now) ∧
    (∀ (t1 t2 r1 r2 : Int) (s : RepairState),
        t2 - t1 < SCRIPT_MIN_INTERVAL_SEC →
          ¬((run_network_repair_script t1 r1 s).ran = true ∧
            (run_network_repair_script t2 r2
                (run_network_repair_script t1 r1 s).state).ran = true)) ∧
    (∀ (t1 t2 r1 r2 : Int) (s : RepairState),
        SCRIPT_MIN_INTERVAL_SEC ≤ t1 - s.last →
        SCRIPT_MIN_INTERVAL_SEC < t2 - t1 →
          (run_network_repair_script t1 r1 s).ran = true ∧
          (run_network_repair_script t2 r2
              (run_network_repair_script t1 r1 s).state).ran = true) := by
  refine ⟨?_, ?_, ?_, ?_⟩
  · intro now sysRc s h
    simp only [run_network_repair_script]
    split_ifs <;> simp_all
  · intro now sysRc s h
    simp only [run_network_repair_script]
    split_ifs <;> simp_all <;> omega
  · intro t1 t2 r1 r2 s h
    simp only [run_network_repair_script, SCRIPT_MIN_INTERVAL_SEC] at *
    split_ifs <;> simp_all
  · intro t1 t2 r1 r2 s h1 h2
    simp only [run_network_repair_script, SCRIPT_MIN_INTERVAL_SEC] at *
    split_ifs <;> simp_all <;> omega

/-- Witness for C1 at concrete inputs: from the initial state, a call at
time 5 is throttled, a call at time 100 runs, and two calls at times 100
and 130 both run. -/
theorem C1_repair_trigger_throttle_witness :
    ((5 : Int) - (RepairState.mk 0).last < SCRIPT_MIN_INTERVAL_SEC ∧
      (run_network_repair_script 5 0 (RepairState.mk 0)).ran = false) ∧
    (SCRIPT_MIN_INTERVAL_SEC ≤ (100 : Int) - (RepairState.mk 0).last ∧
      (run_network_repair_script 100 0 (RepairState.mk 0)).ran = true) ∧
    ((run_network_repair_script 100 0 (RepairState.mk 0)).ran = true ∧
      (run_network_repair_script 130 0
          (run_network_repair_script 100 0 (RepairState.mk 0)).state).ran = true) :=
  ⟨⟨by decide, (C1_repair_trigger_throttle.1 5 0 (RepairState.mk 0) (by decide)).1⟩,
   ⟨by decide, (C1_repair_trigger_throttle.2.1 100 0 (RepairState.mk 0) (by decide)).1⟩,
   C1_repair_trigger_throttle.2.2.2 100 130 0 0 (RepairState.mk 0) (by decide) (by decide)⟩

/-- One operation on the prepared insert statement. -/
inductive StmtOp where
  | reset
  | clearBindings
  | bindInt64 (idx : Nat) (v : Int)
  | bindTextStr (idx : Nat) (v : String)
  | bindTextBytes (idx : Nat) (v : List UInt8)
  | bindInt (idx : Nat) (v : Int)
  | step
deriving DecidableEq

/-- Embedding of `db_insert_message` (lines 168-200) at the level of the
operations performed on the prepared statement, in program order: the call
returns immediately when the statement is null; otherwise it resets the
statement, clears its bindings, binds the wall clock `now` at parameter 1,
the topic C string at parameter 2, the payload text at parameter 3, qos at
4 and retain at 5, and finally steps the statement once.  The sequence
does not depend on the outcome of the step. -/
def db_insert_message_ops (stmtPrepared : Bool) (now : Int) (topic : String)
    (payload : Option (List UInt8)) (payloadlen qos retain : Int)
    (mallocOk : Bool) : List StmtOp :=
  if stmtPrepared = false then []
  else
    [StmtOp.reset, StmtOp.clearBindings,
     StmtOp.bindInt64 1 now,
     StmtOp.bindTextStr 2 topic,
     StmtOp.bindTextBytes 3 (boundPayload payload payloadlen mallocOk),
     StmtOp.bindInt 4 qos,
     StmtOp.bindInt 5 retain,
     StmtOp.step]

/-- Whether an operation sequence contains a reset strictly after its
first step. -/
def hasResetAfterStep (ops : List StmtOp) : Bool :=
  ((ops.dropWhile (fun o => o != StmtOp.step)).drop 1).any
    (fun o => o == StmtOp.reset)

/-- An inbound MQTT message as delivered by the transport
(`struct mosquitto_message`). -/
structure MqttMessage where
  topic : String
  payload : Option (List UInt8)
  payloadlen : Int
  qos : Int
  retain : Bool
deriving DecidableEq

/-- Embedding of `handle_message` (lines 230-242): a null message pointer
returns immediately; otherwise the message fields are passed to
`db_insert_message` exactly once (retain converted bool to int). -/
def handle_message (db : DBState) (now : Int) (msg : Option MqttMessage)
    (mallocOk stepOk : Bool) : DBState :=
  match msg with
  | none => db
  | some m =>
      db_insert_message db now m.topic m.payload m.payloadlen m.qos
        (if m.retain then 1 else 0) mallocOk stepOk

theorem cTextBytes_append_null (xs : List UInt8) :
    cTextBytes (xs ++ [0]) = cTextBytes xs := by
  unfold cTextBytes
  induction xs with
  | nil => simp [List.takeWhile]
  | cons a tl ih =>
      simp only [List.cons_append, List.takeWhile_cons]
      cases h : (a != 0) <;> simp [ih]

theorem cTextBytes_length_lt (bs : List UInt8) (h : (0 : UInt8) ∈ bs) :
    (cTextBytes bs).length < bs.length := by
  unfold cTextBytes
  induction bs with
  | nil => simp at h
  | cons a tl ih =>
      by_cases ha : a = 0
      · subst ha
        simp [List.takeWhile_cons]
      · have htl : (0 : UInt8) ∈ tl := by
          rcases List.mem_cons.mp h with h1 | h2
          · exact absurd h1.symm ha
          · exact h2
        have ha2 : (a != 0) = true := by
          simpa using ha
        simp only [List.takeWhile_cons, ha2, if_true, List.length_cons]
        exact Nat.succ_lt_succ (ih htl)

/-- C2: a failed step of the prepared insert statement is only logged: the
call returns with the database unchanged, and a subsequent insert call for
the next message (whose step succeeds) still appends its record. -/
theorem C2_insert_failure_is_only_logged :
    ∀ (db : DBState) (now1 now2 : Int) (t1 t2 : String)
      (p1 p2 : Option (List UInt8)) (l1 l2 q1 q2 r1 r2 : Int)
      (m1 m2 : Bool),
      db.stmtPrepared = true →
        db_insert_message db now1 t1 p1 l1 q1 r1 m1 false = db ∧
        (db_insert_message (db_insert_message db now1 t1 p1 l1 q1 r1 m1 false)
            now2 t2 p2 l2 q2 r2 m2 true).rows =
          db.rows ++
            [{ ts := now2, topic := t2,
               payload := boundPayload p2 l2 m2,
               qos := q2, retain := r2 }] := by
  intro db now1 now2 t1 t2 p1 p2 l1 l2 q1 q2 r1 r2 m1 m2 hstmt
  constructor
  · simp [db_insert_message, hstmt]
  · simp [db_insert_message, hstmt]

/-- Witness for C2: concretely, with the statement prepared and an empty
table, a failed insert leaves the table empty and the next successful
insert appends its row. -/
theorem C2_insert_failure_is_only_logged_witness :
    (DBState.mk true []).stmtPrepared = true ∧
    (db_insert_message (DBState.mk true []) 1 "a" none 0 0 0 true false =
        DBState.mk true [] ∧
      (db_insert_message
          (db_insert_message (DBState.mk true []) 1 "a" none 0 0 0 true false)
          2 "b" (some [104]) 1 0 0 true true).rows =
        ([] : List Row) ++
          [{ ts := 2, topic := "b", payload := boundPayload (some [104]) 1 true,
             qos := 0, retain := 0 }]) :=
  ⟨rfl, C2_insert_failure_is_only_logged (DBState.mk true []) 1 2 "a" "b"
      none (some [104]) 0 1 0 0 0 0 true true rfl⟩

/-- C4: the payload value bound into the payload column is never null: a
null payload pointer, a negative payload length, or an empty payload is
bound as the empty string, and for a non-negative length and successful
allocation the buffer is the copied bytes with a terminating null boundary
appended. -/
theorem C4_payload_never_null :
    (∀ (l : Int) (m : Bool), boundPayload none l m = []) ∧
    (∀ (p : Option (List UInt8)) (l : Int) (m : Bool),
        l < 0 → boundPayload p l m = []) ∧
    (∀ (l : Int) (m : Bool), 0 ≤ l → boundPayload (some []) l m = []) ∧
    (∀ (bs : List UInt8) (l : Int), 0 ≤ l →
        boundPayloadBuf (some bs) l true = some (bs.take l.toNat ++ [0])) := by
  refine ⟨?_, ?_, ?_, ?_⟩
  · intro l m
    simp [boundPayload, boundPayloadBuf, cTextBytes]
  · intro p l m hl
    cases p with
    | none => simp [boundPayload, boundPayloadBuf, cTextBytes]
    | some bs =>
        have : ¬(0 ≤ l) := by omega
        simp [boundPayload, boundPayloadBuf, cTextBytes, this]
  · intro l m hl
    cases m <;> simp [boundPayload, boundPayloadBuf, cTextBytes, hl, List.takeWhile]
  · intro bs l hl
    simp [boundPayloadBuf, hl]

/-- Witness for C4 at concrete inputs: negative length and empty payload
bind the empty string, and a two-byte payload of length 2 gets a null
terminator appended to the copied bytes. -/
theorem C4_payload_never_null_witness :
    boundPayload none 3 true = [] ∧
    ((-1 : Int) < 0 ∧ boundPayload (some [104, 105]) (-1) true = []) ∧
    ((0 : Int) ≤ 0 ∧ boundPayload (some []) 0 true = []) ∧
    ((0 : Int) ≤ 2 ∧
      boundPayloadBuf (some [104, 105]) 2 true = some ([104, 105].take (2 : Int).toNat ++ [0])) :=
  ⟨C4_payload_never_null.1 3 true,
   ⟨by decide, C4_payload_never_null.2.1 (some [104, 105]) (-1) true (by decide)⟩,
   ⟨by decide, C4_payload_never_null.2.2.1 0 true (by decide)⟩,
   ⟨by decide, C4_payload_never_null.2.2.2 [104, 105] 2 (by decide)⟩⟩

/-- C5: a payload containing an embedded null byte is silently truncated:
the stored text is exactly the prefix strictly before the first null byte
(the bytes a textual `takeWhile` of nonzero bytes keeps), and it is
strictly shorter than the inbound payload. -/
theorem C5_embedded_null_truncates :
    ∀ (bs : List UInt8), (0 : UInt8) ∈ bs →
      boundPayload (some bs) (Int.ofNat bs.length) true =
        bs.takeWhile (fun b => b != 0) ∧
      (boundPayload (some bs) (Int.ofNat bs.length) true).length < bs.length := by
  intro bs h
  have hbuf : boundPayloadBuf (some bs) (Int.ofNat bs.length) true =
      some (bs ++ [0]) := by
    simp [boundPayloadBuf]
  have heq : boundPayload (some bs) (Int.ofNat bs.length) true =
      bs.takeWhile (fun b => b != 0) := by
    unfold boundPayload
    rw [hbuf]
    simpa [cTextBytes] using cTextBytes_append_null bs
  refine ⟨heq, ?_⟩
  rw [heq]
  exact cTextBytes_length_lt bs h

/-- Witness for C5: the payload bytes 104, 0, 105 store as the single byte
104, strictly shorter than the three inbound bytes. -/
theorem C5_embedded_null_truncates_witness :
    (0 : UInt8) ∈ [104, 0, 105] ∧
    (boundPayload (some [104, 0, 105]) (Int.ofNat ([104, 0, 105] : List UInt8).length) true =
        ([104, 0, 105] : List UInt8).takeWhile (fun b => b != 0) ∧
      (boundPayload (some [104, 0, 105]) (Int.ofNat ([104, 0, 105] : List UInt8).length) true).length <
        ([104, 0, 105] : List UInt8).length) :=
  ⟨by decide, C5_embedded_null_truncates [104, 0, 105] (by decide)⟩

/-- The mosquitto success code `MOSQ_ERR_SUCCESS`. -/
def MOSQ_ERR_SUCCESS : Int := 0

/-- Observable effects of the connect callback: the subscribe requests it
issued (topic and qos), whether a subscribe failure was logged, and
whether the callback requested a disconnect or aborted the session (the C
code never does either). -/
structure ConnectEffects where
  subs : List (String × Int)
  loggedSubscribeFailure : Bool
  disconnectRequested : Bool
  aborted : Bool
deriving DecidableEq

/-- Embedding of `handle_connect` (lines 204-218): with result code 0 the
callback issues exactly one subscribe for the configured topic at qos 0,
merely logging when the subscribe call itself fails (`subscribeRc`); with
a nonzero result code it only logs.  No branch disconnects or aborts. -/
def handle_connect (topic : String) (rc : Int) (subscribeRc : Int) : ConnectEffects :=
  if rc = 0 then
    { subs := [(topic, 0)],
      loggedSubscribeFailure := subscribeRc != MOSQ_ERR_SUCCESS,
      disconnectRequested := false,
      aborted := false }
  else
    { subs := [],
      loggedSubscribeFailure := false,
      disconnectRequested := false,
      aborted := false }

/-- Embedding of `handle_disconnect` (lines 220-228): the callback logs
and then calls `run_network_repair_script` exactly once, synchronously,
before returning to the mosquitto reconnect loop.  The first component
counts the trigger calls made by the handler body. -/
def handle_disconnect (disconnectRc now sysRc : Int) (s : RepairState) :
    Nat × RepairResult :=
  (1, run_network_repair_script now sysRc s)

/-- Embedding of the connect step of `main` (lines 296-301): when
`mosquitto_connect` fails the failure is logged and the repair trigger is
called once, and in every case the process proceeds into
`mosquitto_loop_forever` (the first component; `main` never exits here).
The middle component counts the trigger calls made. -/
def main_connect_attempt (connectRc now sysRc : Int) (s : RepairState) :
    Bool × Nat × RepairState :=
  if connectRc ≠ MOSQ_ERR_SUCCESS then
    (true, 1, (run_network_repair_script now sysRc s).state)
  else
    (true, 0, s)

/-- C3: on a connect event with result code 0 the callback issues exactly
one subscribe request for the configured topic at qos 0 and neither
disconnects nor aborts, whatever the subscribe result; a failed subscribe
is logged; on a nonzero result code no subscribe request is issued. -/
theorem C3_connect_subscribes_once :
    (∀ (topic : String) (subscribeRc : Int),
        (handle_connect topic 0 subscribeRc).subs = [(topic, 0)] ∧
        (handle_connect topic 0 subscribeRc).disconnectRequested = false ∧
        (handle_connect topic 0 subscribeRc).aborted = false) ∧
    (∀ (topic : String) (subscribeRc : Int), subscribeRc ≠ 0 →
        (handle_connect topic 0 subscribeRc).loggedSubscribeFailure = true) ∧
    (∀ (topic : String) (rc subscribeRc : Int), rc ≠ 0 →
        (handle_connect topic rc subscribeRc).subs = []) := by
  refine ⟨?_, ?_, ?_⟩
  · intro topic subscribeRc
    simp [handle_connect]
  · intro topic subscribeRc h
    simp [handle_connect, MOSQ_ERR_SUCCESS, h]
  · intro topic rc subscribeRc h
    simp [handle_connect, h]

/-- Witness for C3: with result code 0 and failing subscribe result 5 the
callback subscribes once to the topic at qos 0 and logs the failure; with
result code 3 it subscribes to nothing. -/
theorem C3_connect_subscribes_once_witness :
    ((handle_connect "#" 0 5).subs = [("#", 0)] ∧
      (handle_connect "#" 0 5).disconnectRequested = false ∧
      (handle_connect "#" 0 5).aborted = false) ∧
    ((5 : Int) ≠ 0 ∧ (handle_connect "#" 0 5).loggedSubscribeFailure = true) ∧
    ((3 : Int) ≠ 0 ∧ (handle_connect "#" 3 0).subs = []) :=
  ⟨C3_connect_subscribes_once.1 "#" 5,
   ⟨by decide, C3_connect_subscribes_once.2.1 "#" 5 (by decide)⟩,
   ⟨by decide, C3_connect_subscribes_once.2.2 "#" 3 0 (by decide)⟩⟩

/-- C6 as stated is false: the insert call does not reset the prepared
statement after the execute step.  Concretely, the operation sequence of a
call contains a step but no reset after it: the reset happens at the start
of the call, before the bindings. -/
theorem C6_no_reset_after_step_counterexample :
    (db_insert_message_ops true 0 "t" none 0 0 0 true).contains StmtOp.step = true ∧
    hasResetAfterStep (db_insert_message_ops true 0 "t" none 0 0 0 true) = false := by
  constructor
  · rfl
  · rfl

/-- C6 amended: every insert call with the statement prepared begins by
resetting the statement (and clearing its bindings), then binds the wall
clock taken at insert time as parameter 1, the topic as parameter 2, the
payload text as parameter 3, qos as 4 and retain as 5, and executes the
statement as its final operation.  Because every call starts with the
reset, the next insert call can always reuse the statement regardless of
whether the previous execute succeeded or failed. -/
theorem C6_insert_binds_executes_and_resets_on_entry :
    ∀ (now : Int) (topic : String) (payload : Option (List UInt8))
      (payloadlen qos retain : Int) (mallocOk : Bool),
      (db_insert_message_ops true now topic payload payloadlen qos retain mallocOk).head? =
        some StmtOp.reset ∧
      StmtOp.bindInt64 1 now ∈
        db_insert_message_ops true now topic payload payloadlen qos retain mallocOk ∧
      StmtOp.bindTextStr 2 topic ∈
        db_insert_message_ops true now topic payload payloadlen qos retain mallocOk ∧
      StmtOp.bindTextBytes 3 (boundPayload payload payloadlen mallocOk) ∈
        db_insert_message_ops true now topic payload payloadlen qos retain mallocOk ∧
      StmtOp.bindInt 4 qos ∈
        db_insert_message_ops true now topic payload payloadlen qos retain mallocOk ∧
      StmtOp.bindInt 5 retain ∈
        db_insert_message_ops true now topic payload payloadlen qos retain mallocOk ∧
      (db_insert_message_ops true now topic payload payloadlen qos retain mallocOk).getLast? =
        some StmtOp.step := by
  intro now topic payload payloadlen qos retain mallocOk
  refine ⟨rfl, ?_, ?_, ?_, ?_, ?_, rfl⟩ <;> simp [db_insert_message_ops]

/-- C7: the disconnect callback calls the repair trigger exactly once,
synchronously threading the throttle state, before returning to the
reconnect loop; a second disconnect within the throttle interval finds
the trigger throttled.  A failed initial connect calls the trigger once
and still proceeds into the reconnect loop; a successful connect calls it
not at all and proceeds. -/
theorem C7_disconnect_invokes_repair :
    (∀ (rc now sysRc : Int) (s : RepairState),
        (handle_disconnect rc now sysRc s).1 = 1 ∧
        (handle_disconnect rc now sysRc s).2 = run_network_repair_script now sysRc s) ∧
    (∀ (rc1 rc2 t1 t2 r1 r2 : Int) (s : RepairState),
        t2 - t1 < SCRIPT_MIN_INTERVAL_SEC →
        (handle_disconnect rc1 t1 r1 s).2.ran = true →
          (handle_disconnect rc2 t2 r2 (handle_disconnect rc1 t1 r1 s).2.state).2.ran = false) ∧
    (∀ (rc now sysRc : Int) (s : RepairState), rc ≠ 0 →
        (main_connect_attempt rc now sysRc s).1 = true ∧
        (main_connect_attempt rc now sysRc s).2.1 = 1 ∧
        (main_connect_attempt rc now sysRc s).2.2 =
          (run_network_repair_script now sysRc s).state) ∧
    (∀ (now sysRc : Int) (s : RepairState),
        main_connect_attempt 0 now sysRc s = (true, 0, s)) := by
  refine ⟨?_, ?_, ?_, ?_⟩
  · intro rc now sysRc s
    exact ⟨rfl, rfl⟩
  · intro rc1 rc2 t1 t2 r1 r2 s hlt hran
    simp only [handle_disconnect] at *
    simp only [run_network_repair_script, SCRIPT_MIN_INTERVAL_SEC] at *
    split_ifs at * <;> simp_all
  · intro rc now sysRc s h
    simp [main_connect_attempt, MOSQ_ERR_SUCCESS, h]
  · intro now sysRc s
    simp [main_connect_attempt, MOSQ_ERR_SUCCESS]

/-- Witness for C7: a disconnect at time 100 from the initial state runs
the script; a second disconnect at time 110 is throttled; a failed initial
connect (rc 14) from the initial state calls the trigger once and still
proceeds into the loop. -/
theorem C7_disconnect_invokes_repair_witness :
    ((handle_disconnect 7 100 0 (RepairState.mk 0)).1 = 1 ∧
      (handle_disconnect 7 100 0 (RepairState.mk 0)).2 =
        run_network_repair_script 100 0 (RepairState.mk 0)) ∧
    ((110 : Int) - 100 < SCRIPT_MIN_INTERVAL_SEC ∧
      (handle_disconnect 7 100 0 (RepairState.mk 0)).2.ran = true ∧
      (handle_disconnect 7 110 0
          (handle_disconnect 7 100 0 (RepairState.mk 0)).2.state).2.ran = false) ∧
    ((14 : Int) ≠ 0 ∧
      (main_connect_attempt 14 100 0 (RepairState.mk 0)).1 = true ∧
      (main_connect_attempt 14 100 0 (RepairState.mk 0)).2.1 = 1) :=
  ⟨C7_disconnect_invokes_repair.1 7 100 0 (RepairState.mk 0),
   ⟨by decide, by decide,
     C7_disconnect_invokes_repair.2.1 7 7 100 110 0 0 (RepairState.mk 0)
       (by decide) (by decide)⟩,
   ⟨by decide,
     (C7_disconnect_invokes_repair.2.2.1 14 100 0 (RepairState.mk 0) (by decide)).1,
     (C7_disconnect_invokes_repair.2.2.1 14 100 0 (RepairState.mk 0) (by decide)).2.1⟩⟩

/-- C9: a null message pointer makes the message callback return without
inserting, and an insert call with the prepared statement null is a no-op
that touches neither the stored rows nor the statement — neither edge case
faults. -/
theorem C9_null_message_and_null_statement_are_noops :
    (∀ (db : DBState) (now : Int) (mallocOk stepOk : Bool),
        handle_message db now none mallocOk stepOk = db) ∧
    (∀ (db : DBState) (now : Int) (topic : String) (payload : Option (List UInt8))
        (payloadlen qos retain : Int) (mallocOk stepOk : Bool),
        db.stmtPrepared = false →
          db_insert_message db now topic payload payloadlen qos retain mallocOk stepOk = db) ∧
    (∀ (now : Int) (topic : String) (payload : Option (List UInt8))
        (payloadlen qos retain : Int) (mallocOk : Bool),
        db_insert_message_ops false now topic payload payloadlen qos retain mallocOk = []) := by
  refine ⟨?_, ?_, ?_⟩
  · intro db now mallocOk stepOk
    rfl
  · intro db now topic payload payloadlen qos retain mallocOk stepOk h
    simp [db_insert_message, h]
  · intro now topic payload payloadlen qos retain mallocOk
    rfl

/-- Witness for C9: with a null statement and one stored row, an insert
call returns the state unchanged. -/
theorem C9_null_message_and_null_statement_are_noops_witness :
    (DBState.mk false []).stmtPrepared = false ∧
    db_insert_message (DBState.mk false []) 1 "t" (some [104]) 1 0 0 true true =
      DBState.mk false [] :=
  ⟨rfl, C9_null_message_and_null_statement_are_noops.2.1 (DBState.mk false [])
      1 "t" (some [104]) 1 0 0 true true rfl⟩

/-- SQLite schema state for one database file: names of existing tables
and of existing indexes. -/
structure Schema where
  tables : List String
  indexes : List String
deriving DecidableEq

/-- Semantics of `CREATE TABLE IF NOT EXISTS name`: no-op when the table
exists, otherwise add it. -/
def createTableIfNotExists (s : Schema) (name : String) : Schema :=
  if name ∈ s.tables then s else { s with tables := s.tables ++ [name] }

/-- Semantics of `CREATE INDEX IF NOT EXISTS name`: no-op when the index
exists, otherwise add it. -/
def createIndexIfNotExists (s : Schema) (name : String) : Schema :=
  if name ∈ s.indexes then s else { s with indexes := s.indexes ++ [name] }

/-- The DDL batch executed by `db_init` (lines 124-137): create the
`messages` table and the `idx_messages_ts` and `idx_messages_topic`
indexes, each with IF NOT EXISTS. -/
def db_init_ddl (s : Schema) : Schema :=
  createIndexIfNotExists
    (createIndexIfNotExists
      (createTableIfNotExists s "messages") "idx_messages_ts")
    "idx_messages_topic"

/-- Embedding of `db_init` (lines 112-155): opening the database and
preparing the insert statement are external steps (oracles `openOk` and
`prepareOk`, covering the I/O level failures of lines 113-117 and
148-152); between them the DDL batch runs, which by its IF NOT EXISTS
clauses never errors on an existing schema.  Returns the C result
(0 or -1) and the resulting schema.  The pragma statements of
lines 120-122 do not touch the schema. -/
def db_init (openOk prepareOk : Bool) (s : Schema) : Int × Schema :=
  if openOk = false then (-1, s)
  else
    let s2 := db_init_ddl s
    if prepareOk = false then (-1, s2)
    else (0, s2)

theorem createTableIfNotExists_indexes (s : Schema) (n : String) :
    (createTableIfNotExists s n).indexes = s.indexes := by
  unfold createTableIfNotExists
  split_ifs <;> rfl

theorem createIndexIfNotExists_tables (s : Schema) (n : String) :
    (createIndexIfNotExists s n).tables = s.tables := by
  unfold createIndexIfNotExists
  split_ifs <;> rfl

theorem mem_createTableIfNotExists (s : Schema) (n : String) :
    n ∈ (createTableIfNotExists s n).tables := by
  unfold createTableIfNotExists
  split_ifs with h
  · exact h
  · simp

theorem mem_createIndexIfNotExists (s : Schema) (n : String) :
    n ∈ (createIndexIfNotExists s n).indexes := by
  unfold createIndexIfNotExists
  split_ifs with h
  · exact h
  · simp

theorem mem_indexes_createIndexIfNotExists (s : Schema) (n m : String)
    (h : n ∈ s.indexes) : n ∈ (createIndexIfNotExists s m).indexes := by
  unfold createIndexIfNotExists
  split_ifs with hm
  · exact h
  · simp [h]

theorem createTableIfNotExists_of_mem (s : Schema) (n : String)
    (h : n ∈ s.tables) : createTableIfNotExists s n = s := by
  unfold createTableIfNotExists
  simp [h]

theorem createIndexIfNotExists_of_mem (s : Schema) (n : String)
    (h : n ∈ s.indexes) : createIndexIfNotExists s n = s := by
  unfold createIndexIfNotExists
  simp [h]

theorem db_init_ddl_idem (s : Schema) :
    db_init_ddl (db_init_ddl s) = db_init_ddl s := by
  have htab : "messages" ∈ (db_init_ddl s).tables := by
    unfold db_init_ddl
    rw [createIndexIfNotExists_tables, createIndexIfNotExists_tables]
    exact mem_createTableIfNotExists s "messages"
  have hts : "idx_messages_ts" ∈ (db_init_ddl s).indexes := by
    unfold db_init_ddl
    exact mem_indexes_createIndexIfNotExists _ _ _
      (mem_createIndexIfNotExists _ _)
  have htop : "idx_messages_topic" ∈ (db_init_ddl s).indexes := by
    unfold db_init_ddl
    exact mem_createIndexIfNotExists _ _
  set t := db_init_ddl s with ht
  unfold db_init_ddl
  rw [createTableIfNotExists_of_mem _ _ htab,
      createIndexIfNotExists_of_mem _ _ hts,
      createIndexIfNotExists_of_mem _ _ htop]

/-- C8: running `db_init` twice against the same database succeeds both
times when the external open and prepare steps succeed, the second run
leaves the schema exactly as the first left it (the DDL is idempotent on
every schema), and starting from an empty database the result holds
exactly one `messages` table and exactly one of each of the two indexes. -/
theorem C8_db_init_idempotent :
    (∀ s : Schema, db_init_ddl (db_init_ddl s) = db_init_ddl s) ∧
    (∀ s : Schema,
        (db_init true true s).1 = 0 ∧
        (db_init true true (db_init true true s).2).1 = 0 ∧
        (db_init true true (db_init true true s).2).2 = (db_init true true s).2) ∧
    ((db_init true true (db_init true true (Schema.mk [] [])).2).2.tables.count
        "messages" = 1 ∧
      (db_init true true (db_init true true (Schema.mk [] [])).2).2.indexes.count
        "idx_messages_ts" = 1 ∧
      (db_init true true (db_init true true (Schema.mk [] [])).2).2.indexes.count
        "idx_messages_topic" = 1) := by
  refine ⟨db_init_ddl_idem, ?_, ?_⟩
  · intro s
    refine ⟨rfl, rfl, ?_⟩
    simp [db_init, db_init_ddl_idem]
  · refine ⟨?_, ?_, ?_⟩ <;> decide

/-- The C locale whitespace test `isspace` on the characters `strtol`
skips. -/
def isSpaceC (c : Char) : Bool :=
  c = ' ' || c = '\t' || c = '\n' || c = '\r' ||
  c = Char.ofNat 11 || c = Char.ofNat 12

/-- Decimal digit test. -/
def isDigitC (c : Char) : Bool :=
  '0' ≤ c && c ≤ '9'

/-- Value of a list of decimal digits, most significant first. -/
def digitsToNat (ds : List Char) : Nat :=
  ds.foldl (fun a c => a * 10 + (c.toNat - 48)) 0

/-- Result of the `strtol` model: the parsed value, the index the end
pointer lands on, and whether any digits were converted (`end != nptr`).
On no conversion the value is 0 and the end pointer is the start. -/
structure StrtolResult where
  value : Int
  stop : Nat
  converted : Bool
deriving DecidableEq

/-- Model of `strtol(v, &end, 10)` on a character list: skip leading
whitespace, accept one optional sign, then take the maximal run of
decimal digits.  The value is exact (unbounded `Int`); for the uses in
this program the later range gate `0 <= x <= 1000000` decides identically
for exact and for clamped overflow values. -/
def strtol10 (s : List Char) : StrtolResult :=
  let ws := (s.takeWhile isSpaceC).length
  let rest := s.drop ws
  let signInfo : Int × Nat :=
    match rest with
    | c :: _ => if c = '-' then (-1, 1) else if c = '+' then (1, 1) else (1, 0)
    | [] => (1, 0)
  let digits := (rest.drop signInfo.2).takeWhile isDigitC
  if digits.length = 0 then
    { value := 0, stop := 0, converted := false }
  else
    { value := signInfo.1 * Int.ofNat (digitsToNat digits),
      stop := ws + signInfo.2 + digits.length,
      converted := true }

/-- Embedding of `env_or_default_int` (lines 59-67): an unset or empty
environment value yields the default; so does a value with no digits
converted (`end == v`), a value with trailing characters after the parse
(`*end` nonzero, modelled as the end index short of the length), and a
parsed value below 0 or above 1000000; otherwise the parsed value is
returned. -/
def env_or_default_int (v : Option String) (defval : Int) : Int :=
  match v with
  | none => defval
  | some s =>
      if s.length = 0 then defval
      else
        let r := strtol10 s.toList
        if r.converted = false || r.stop < s.toList.length then defval
        else if r.value < 0 || r.value > 1000000 then defval
        else r.value

/-- C10: every integer configuration lookup falls back to the coded
default when the environment value is unset, empty, converts no digits,
has trailing characters after the digits, parses negative, or parses
above 1000000; and whenever the default lies in [0, 1000000] — as the
coded defaults 1883, 2 and 60 for broker port and backoff bounds do — the
effective value lies in [0, 1000000]. -/
theorem C10_env_int_defaults_and_range :
    (∀ d : Int, env_or_default_int none d = d) ∧
    (∀ d : Int, env_or_default_int (some "") d = d) ∧
    (∀ (s : String) (d : Int), (strtol10 s.toList).converted = false →
        env_or_default_int (some s) d = d) ∧
    (∀ (s : String) (d : Int), (strtol10 s.toList).stop < s.toList.length →
        env_or_default_int (some s) d = d) ∧
    (∀ (s : String) (d : Int), (strtol10 s.toList).value < 0 →
        env_or_default_int (some s) d = d) ∧
    (∀ (s : String) (d : Int), 1000000 < (strtol10 s.toList).value →
        env_or_default_int (some s) d = d) ∧
    (∀ (v : Option String) (d : Int), 0 ≤ d → d ≤ 1000000 →
        0 ≤ env_or_default_int v d ∧ env_or_default_int v d ≤ 1000000) ∧
    (∀ v : Option String,
        (0 ≤ env_or_default_int v 1883 ∧ env_or_default_int v 1883 ≤ 1000000) ∧
        (0 ≤ env_or_default_int v 2 ∧ env_or_default_int v 2 ≤ 1000000) ∧
        (0 ≤ env_or_default_int v 60 ∧ env_or_default_int v 60 ≤ 1000000)) := by
  have hrange : ∀ (v : Option String) (d : Int), 0 ≤ d → d ≤ 1000000 →
      0 ≤ env_or_default_int v d ∧ env_or_default_int v d ≤ 1000000 := by
    intro v d h0 h1
    cases v with
    | none => simpa [env_or_default_int] using ⟨h0, h1⟩
    | some s =>
        simp only [env_or_default_int]
        split_ifs with hemp hfail hout
        · exact ⟨h0, h1⟩
        · exact ⟨h0, h1⟩
        · exact ⟨h0, h1⟩
        · rw [Bool.or_eq_true, not_or] at hout
          constructor <;> [skip; skip] <;>
            simp only [decide_eq_true_eq] at hout <;> omega
  refine ⟨?_, ?_, ?_, ?_, ?_, ?_, hrange, ?_⟩
  · intro d
    rfl
  · intro d
    rfl
  · intro s d h
    simp only [env_or_default_int]
    split_ifs with hemp hfail hout
    · rfl
    · rfl
    · rfl
    · rw [Bool.or_eq_true, not_or] at hfail
      exact absurd h (by simpa using hfail.1)
  · intro s d h
    simp only [env_or_default_int]
    split_ifs with hemp hfail hout
    · rfl
    · rfl
    · rfl
    · rw [Bool.or_eq_true, not_or] at hfail
      exact absurd h (by simpa using hfail.2)
  · intro s d h
    simp only [env_or_default_int]
    split_ifs with hemp hfail hout
    · rfl
    · rfl
    · rfl
    · rw [Bool.or_eq_true, not_or] at hout
      have := hout.1
      simp only [decide_eq_true_eq] at this
      omega
  · intro s d h
    simp only [env_or_default_int]
    split_ifs with hemp hfail hout
    · rfl
    · rfl
    · rfl
    · rw [Bool.or_eq_true, not_or] at hout
      have := hout.2
      simp only [decide_eq_true_eq] at this
      omega
  · intro v
    exact ⟨hrange v 1883 (by decide) (by decide),
           hrange v 2 (by decide) (by decide),
           hrange v 60 (by decide) (by decide)⟩

/-- Witness for C10 at concrete inputs: the value "12x" has trailing
characters and falls back to the default 1883; the value "-5" parses
negative and falls back to 2; the value "9999999" exceeds the bound and
falls back to 60; and with default 1883 every effective value, here for
the value "70000", lies in [0, 1000000]. -/
theorem C10_env_int_defaults_and_range_witness :
    ((strtol10 "12x".toList).stop < "12x".toList.length ∧
      env_or_default_int (some "12x") 1883 = 1883) ∧
    ((strtol10 "-5".toList).value < 0 ∧
      env_or_default_int (some "-5") 2 = 2) ∧
    ((1000000 : Int) < (strtol10 "9999999".toList).value ∧
      env_or_default_int (some "9999999") 60 = 60) ∧
    ((0 : Int) ≤ 1883 ∧ (1883 : Int) ≤ 1000000 ∧
      0 ≤ env_or_default_int (some "70000") 1883 ∧
      env_or_default_int (some "70000") 1883 ≤ 1000000) :=
  ⟨⟨by decide, C10_env_int_defaults_and_range.2.2.2.1 "12x" 1883 (by decide)⟩,
   ⟨by decide, C10_env_int_defaults_and_range.2.2.2.2.1 "-5" 2 (by decide)⟩,
   ⟨by decide, C10_env_int_defaults_and_range.2.2.2.2.2.1 "9999999" 60 (by decide)⟩,
   ⟨by decide, by decide,
     (C10_env_int_defaults_and_range.2.2.2.2.2.2.1 (some "70000") 1883
        (by decide) (by decide)).1,
     (C10_env_int_defaults_and_range.2.2.2.2.2.2.1 (some "70000") 1883
        (by decide) (by decide)).2⟩⟩
